import Mathlib

/-!
Verification of the element search-and-act module of this repository.

The embedded code is src/simplified_search.ts, which defines the two public
operations clickWithRetry (locateAndClick) and fillWithRetry (locateAndFill).
The translation is direct: each in-page evaluation becomes a pure function
over an explicit document value; the possibility that an evaluation throws
(page navigated away, detached frame) is modelled by a per-page evalFails
flag, and a thrown evaluation is an Except.error that the embedded function
handles exactly where the source has try/catch blocks.  Waits
(waitForTimeout) have no effect on any result and are not modelled.
-/

namespace SimplifiedSearch

/-- Characterwise lowercasing, modelling the JS toLowerCase calls of the
source.  Defined through the character list so that concrete instances
reduce in the kernel. -/
def lower (s : String) : String := String.mk (s.data.map Char.toLower)

/-- Boolean test that the first character list is a prefix of the second. -/
def startsWithB : List Char → List Char → Bool
  | [], _ => true
  | _ :: _, [] => false
  | a :: as, b :: bs => a == b && startsWithB as bs

/-- Boolean test that the first character list occurs contiguously inside
the second. -/
def containsSeq : List Char → List Char → Bool
  | needle, [] => startsWithB needle []
  | needle, c :: cs => startsWithB needle (c :: cs) || containsSeq needle cs

/-- JS String.prototype.includes: the needle occurs as a substring of the
haystack. -/
def includesB (hay needle : String) : Bool := containsSeq needle.data hay.data

/-- One DOM element together with every fact the source code reads from it.
Attributes that getAttribute may return as null are modelled as the empty
string, because the source immediately collapses null to the empty string
with the pattern x?.toLowerCase() or two vertical bars followed by
the empty string literal.  The fields tag, role, classes and dataRole are
never read by the source; they carry the data the dropdown classification
of the specification (section 4.4) would need. -/
structure Elem where
  tag : String
  role : String
  classes : List String
  dataRole : String
  text : String
  ariaLabel : String
  title : String
  placeholder : String
  id : String
  name : String
  width : Nat
  height : Nat
  display : String
  visibility : String
  disabled : Bool
deriving DecidableEq, Repr

/-- One document scope.  clickables is the node list the selector string
for clickable elements returns in DOM order (button, a, role button,
role tab, input of type button); inputs is the node list for the selector
input, textarea; frames are the iframe children of this document with a
flag saying whether contentDocument access succeeds (false models both a
null contentDocument and a cross-origin access throw, which the source
treats identically by skipping the frame).  Nested documents inside frames
make the type recursive. -/
inductive Doc where
  | node (clickables : List Elem) (inputs : List Elem) (frames : List (Bool × Doc))

/-- The clickable node list of a document. -/
def Doc.clickables : Doc → List Elem
  | .node c _ _ => c

/-- The input node list of a document. -/
def Doc.inputs : Doc → List Elem
  | .node _ i _ => i

/-- The iframe children of a document. -/
def Doc.frames : Doc → List (Bool × Doc)
  | .node _ _ f => f

/-- A page handle: closed models isClosed, evalFails models an evaluate
call on this page throwing, doc is the page document. -/
structure Page where
  closed : Bool
  evalFails : Bool
  doc : Doc

/-- The ambient state the source reads: state.page (possibly unset) and
the global allPages list of popup pages, in the order the popups were
opened.  Null entries of allPages are not modelled, since the source
skips them unconditionally. -/
structure SessionState where
  page : Option Page
  allPages : List Page

/-- Which execution context an evaluate round-trip ran in. -/
inductive Ctx where
  | main
  | iframe
  | popup
deriving DecidableEq, Repr

/-- Match predicate of the main-page and iframe click sweeps
(src/simplified_search.ts lines 27 to 32 and 69 to 74): the lowercased
target occurs in the lowercased text content, aria-label or title. -/
def clickMatch (t : String) (e : Elem) : Bool :=
  includesB (lower e.text) (lower t) || includesB (lower e.ariaLabel) (lower t) ||
    includesB (lower e.title) (lower t)

/-- Match predicate of the popup click sweep (lines 100 to 105): text
content or aria-label only; the title attribute is not compared there. -/
def popupClickMatch (t : String) (e : Elem) : Bool :=
  includesB (lower e.text) (lower t) || includesB (lower e.ariaLabel) (lower t)

/-- Match predicate of the main-page and iframe fill sweeps (lines 155 to
162): placeholder, aria-label, id or name. -/
def fillMatch (t : String) (e : Elem) : Bool :=
  includesB (lower e.placeholder) (lower t) || includesB (lower e.ariaLabel) (lower t) ||
    includesB (lower e.id) (lower t) || includesB (lower e.name) (lower t)

/-- Match predicate of the popup fill sweep (lines 237 to 241):
placeholder or aria-label only. -/
def popupFillMatch (t : String) (e : Elem) : Bool :=
  includesB (lower e.placeholder) (lower t) || includesB (lower e.ariaLabel) (lower t)

/-- Visibility test of the main-page sweeps (lines 36 to 38 and 166 to
168): non-zero bounding box and computed display and visibility not
hidden. -/
def visOK (e : Elem) : Bool :=
  decide (0 < e.width) && decide (0 < e.height) &&
    (e.display != "none") && (e.visibility != "hidden")

/-- Bounding-box-only test of the iframe click sweep (line 76): the
computed style is not consulted there. -/
def rectOK (e : Elem) : Bool :=
  decide (0 < e.width) && decide (0 < e.height)

/-- Main-page click loop (lines 26 to 45): first element that matches and
passes the full visibility test; a matching but invisible element is
skipped and the loop continues. -/
def mainClickFind (t : String) : List Elem → Option Elem
  | [] => none
  | e :: rest =>
    if clickMatch t e then
      if visOK e then some e else mainClickFind t rest
    else mainClickFind t rest

/-- Per-frame click loop of the iframe sweep (lines 66 to 82): same match
predicate but only the bounding-box check. -/
def iframeClickFind (t : String) : List Elem → Option Elem
  | [] => none
  | e :: rest =>
    if clickMatch t e then
      if rectOK e then some e else iframeClickFind t rest
    else iframeClickFind t rest

/-- Iframe click sweep (lines 56 to 89): iterate the iframe children of
the top document only; an inaccessible frame is skipped; within a frame
document only its own clickable list is scanned, so frames nested inside a
frame are never visited. -/
def iframeClickScan (t : String) : List (Bool × Doc) → Option Elem
  | [] => none
  | (acc, d) :: rest =>
    if acc then
      match iframeClickFind t (Doc.clickables d) with
      | some e => some e
      | none => iframeClickScan t rest
    else iframeClickScan t rest

/-- Popup click loop (lines 95 to 124): skip closed popups; an evaluate
that throws on a popup is caught by the inner try and the loop continues;
otherwise click the first match of the popup predicate with no visibility
or enabled check. -/
def popupClickLoop (t : String) : List Page → Option Elem
  | [] => none
  | p :: rest =>
    if p.closed then popupClickLoop t rest
    else if p.evalFails then popupClickLoop t rest
    else
      match List.find? (popupClickMatch t) (Doc.clickables p.doc) with
      | some e => some e
      | none => popupClickLoop t rest

/-- Main-page fill loop (lines 154 to 181): first input that matches and
is visible and not disabled. -/
def mainFillFind (t : String) : List Elem → Option Elem
  | [] => none
  | e :: rest =>
    if fillMatch t e then
      if visOK e && !e.disabled then some e else mainFillFind t rest
    else mainFillFind t rest

/-- Iframe fill sweep (lines 190 to 228): first matching input of an
accessible frame document is filled immediately, with no visibility and no
disabled check. -/
def iframeFillScan (t : String) : List (Bool × Doc) → Option Elem
  | [] => none
  | (acc, d) :: rest =>
    if acc then
      match List.find? (fillMatch t) (Doc.inputs d) with
      | some e => some e
      | none => iframeFillScan t rest
    else iframeFillScan t rest

/-- Popup fill loop (lines 231 to 262): like the popup click loop, with
the popup fill predicate and no checks. -/
def popupFillLoop (t : String) : List Page → Option Elem
  | [] => none
  | p :: rest =>
    if p.closed then popupFillLoop t rest
    else if p.evalFails then popupFillLoop t rest
    else
      match List.find? (popupFillMatch t) (Doc.inputs p.doc) with
      | some e => some e
      | none => popupFillLoop t rest

/-- The element clickWithRetry acts on, with its context: the three sweeps
of the try block in their source order. -/
def clickFound (pg : Page) (pages : List Page) (t : String) : Option (Ctx × Elem) :=
  match mainClickFind t (Doc.clickables pg.doc) with
  | some e => some (Ctx.main, e)
  | none =>
    match iframeClickScan t (Doc.frames pg.doc) with
    | some e => some (Ctx.iframe, e)
    | none => Option.map (fun e => (Ctx.popup, e)) (popupClickLoop t pages)

/-- The element fillWithRetry acts on, with its context. -/
def fillFound (pg : Page) (pages : List Page) (t : String) : Option (Ctx × Elem) :=
  match mainFillFind t (Doc.inputs pg.doc) with
  | some e => some (Ctx.main, e)
  | none =>
    match iframeFillScan t (Doc.frames pg.doc) with
    | some e => some (Ctx.iframe, e)
    | none => Option.map (fun e => (Ctx.popup, e)) (popupFillLoop t pages)

/-- The body of the try block of clickWithRetry: an error is a thrown
main-page evaluation (the popup evaluations are guarded by their own inner
try and never escape). -/
def clickSearch (pg : Page) (pages : List Page) (t : String) :
    Except Unit (Option (Ctx × Elem)) :=
  if pg.evalFails then Except.error () else Except.ok (clickFound pg pages t)

/-- The body of the try block of fillWithRetry. -/
def fillSearch (pg : Page) (pages : List Page) (t : String) :
    Except Unit (Option (Ctx × Elem)) :=
  if pg.evalFails then Except.error () else Except.ok (fillFound pg pages t)

/-- The observable outcome of a clickWithRetry call, before the final
catch is taken into account only as far as the source takes it: an
Except.error value would be a propagated exception, and the source's catch
block (lines 129 to 132) converts every error to a false return.  The
maxRetries parameter (default 1 at the call sites) is carried because the
source declares it. -/
def clickCall (st : SessionState) (t : String) (maxRetries : Nat) : Except Unit Bool :=
  match st.page with
  | none => Except.ok false
  | some pg =>
    if pg.closed then Except.ok false
    else
      match clickSearch pg st.allPages t with
      | Except.ok r => Except.ok r.isSome
      | Except.error _ => Except.ok false

/-- The observable outcome of a fillWithRetry call; the catch block is at
lines 265 to 268. -/
def fillCall (st : SessionState) (t v : String) (maxRetries : Nat) : Except Unit Bool :=
  match st.page with
  | none => Except.ok false
  | some pg =>
    if pg.closed then Except.ok false
    else
      match fillSearch pg st.allPages t with
      | Except.ok r => Except.ok r.isSome
      | Except.error _ => Except.ok false

/-- Public operation locateAndClick, src/simplified_search.ts lines 16 to
133.  The trailing match only extracts the boolean from the Except value;
clickCall never carries an error. -/
def clickWithRetry (st : SessionState) (t : String) (maxRetries : Nat) : Bool :=
  match clickCall st t maxRetries with
  | Except.ok b => b
  | Except.error _ => false

/-- Public operation locateAndFill, lines 144 to 269. -/
def fillWithRetry (st : SessionState) (t v : String) (maxRetries : Nat) : Bool :=
  match fillCall st t v maxRetries with
  | Except.ok b => b
  | Except.error _ => false

/-- The element a clickWithRetry call clicks, if any. -/
def clickActed (st : SessionState) (t : String) : Option (Ctx × Elem) :=
  match st.page with
  | none => none
  | some pg =>
    if pg.closed then none
    else
      match clickSearch pg st.allPages t with
      | Except.ok r => r
      | Except.error _ => none

/-- The element a fillWithRetry call writes to, if any.  The fill value
does not influence the search, mirroring the source. -/
def fillActed (st : SessionState) (t : String) : Option (Ctx × Elem) :=
  match st.page with
  | none => none
  | some pg =>
    if pg.closed then none
    else
      match fillSearch pg st.allPages t with
      | Except.ok r => r
      | Except.error _ => none

/-- The only fill primitive the source possesses: a direct value
assignment followed by synthetic input and change events (lines 172 to
175, 216 to 219, 246 to 249).  The type has a single constructor because
the source has a single fill action; there is no dropdown-protocol
action anywhere in src/simplified_search.ts. -/
inductive FillAct where
  | setValue (ctx : Ctx) (e : Elem) (v : String)
deriving DecidableEq, Repr

/-- The list of fill actions one fillWithRetry call performs. -/
def fillActs (st : SessionState) (t v : String) : List FillAct :=
  match fillActed st t with
  | some (c, e) => [FillAct.setValue c e v]
  | none => []

/-- Trace of popup evaluate round-trips of the click path: one entry per
non-closed popup until one succeeds. -/
def popupClickTraceAux (t : String) : List Page → List Ctx
  | [] => []
  | p :: rest =>
    if p.closed then popupClickTraceAux t rest
    else if p.evalFails then Ctx.popup :: popupClickTraceAux t rest
    else if (List.find? (popupClickMatch t) (Doc.clickables p.doc)).isSome then [Ctx.popup]
    else Ctx.popup :: popupClickTraceAux t rest

/-- Trace of evaluate round-trips (DOM queries) one clickWithRetry call
performs, in order: nothing when the page is unset or closed, the main
sweep, then the iframe sweep, then the popup sweeps. -/
def clickTrace (st : SessionState) (t : String) : List Ctx :=
  match st.page with
  | none => []
  | some pg =>
    if pg.closed then []
    else if pg.evalFails then [Ctx.main]
    else if (mainClickFind t (Doc.clickables pg.doc)).isSome then [Ctx.main]
    else if (iframeClickScan t (Doc.frames pg.doc)).isSome then [Ctx.main, Ctx.iframe]
    else Ctx.main :: Ctx.iframe :: popupClickTraceAux t st.allPages

/-- Trace of popup evaluate round-trips of the fill path. -/
def popupFillTraceAux (t : String) : List Page → List Ctx
  | [] => []
  | p :: rest =>
    if p.closed then popupFillTraceAux t rest
    else if p.evalFails then Ctx.popup :: popupFillTraceAux t rest
    else if (List.find? (popupFillMatch t) (Doc.inputs p.doc)).isSome then [Ctx.popup]
    else Ctx.popup :: popupFillTraceAux t rest

/-- Trace of evaluate round-trips one fillWithRetry call performs. -/
def fillTrace (st : SessionState) (t : String) : List Ctx :=
  match st.page with
  | none => []
  | some pg =>
    if pg.closed then []
    else if pg.evalFails then [Ctx.main]
    else if (mainFillFind t (Doc.inputs pg.doc)).isSome then [Ctx.main]
    else if (iframeFillScan t (Doc.frames pg.doc)).isSome then [Ctx.main, Ctx.iframe]
    else Ctx.main :: Ctx.iframe :: popupFillTraceAux t st.allPages

/-- No element of any searched context satisfies the click predicates. -/
def noClickMatchB (st : SessionState) (t : String) : Bool :=
  (match st.page with
   | none => true
   | some pg =>
     List.all (Doc.clickables pg.doc) (fun e => !clickMatch t e) &&
       List.all (Doc.frames pg.doc)
         (fun fr => List.all (Doc.clickables fr.2) (fun e => !clickMatch t e))) &&
    List.all st.allPages (fun p => List.all (Doc.clickables p.doc) (fun e => !popupClickMatch t e))

/-- No element of any searched context satisfies the fill predicates. -/
def noFillMatchB (st : SessionState) (t : String) : Bool :=
  (match st.page with
   | none => true
   | some pg =>
     List.all (Doc.inputs pg.doc) (fun e => !fillMatch t e) &&
       List.all (Doc.frames pg.doc)
         (fun fr => List.all (Doc.inputs fr.2) (fun e => !fillMatch t e))) &&
    List.all st.allPages (fun p => List.all (Doc.inputs p.doc) (fun e => !popupFillMatch t e))

/-- Modelled from the spec (section 4.1): classification of a target as
selector-like when it begins with a hash sign, a dot or an opening square
bracket.  No such classification exists anywhere in
src/simplified_search.ts; this definition follows the words of the
specification and exists to state claim C5. -/
def specSelectorLike (t : String) : Bool :=
  match t.data with
  | c :: _ => c == '#' || c == '.' || c == '['
  | [] => false

/-- Modelled from the spec (section 4.6, strategy 1): direct selector
lookup, restricted to id selectors, which suffice for the claims here: a
target starting with a hash sign resolves to the first element whose id
attribute equals the rest of the target.  The source has no selector
branch; this definition follows the words of the specification. -/
def specSelectorResolve (t : String) (d : Doc) : Option Elem :=
  match t.data with
  | '#' :: rest => List.find? (fun e => e.id == String.mk rest) (Doc.clickables d ++ Doc.inputs d)
  | _ => none

/-- Modelled from the spec (section 4.4): the dropdown classification
predicate: native select tag, role listbox or combobox, a
dropdown-like or select-like class token, or a dropdown data-attribute.
The source never evaluates any such predicate; this definition follows the
words of the specification and exists to state claim C4. -/
def isDropdownSpec (e : Elem) : Bool :=
  lower e.tag == "select" || lower e.role == "listbox" || lower e.role == "combobox" ||
    List.any e.classes
      (fun c => includesB (lower c) "dropdown" || includesB (lower c) "select") ||
    lower e.dataRole == "dropdown"

/-!  Concrete fixtures used by witnesses and counterexamples. -/

/-- An open page whose evaluations succeed, holding the given document. -/
def openPage (d : Doc) : Page := { closed := false, evalFails := false, doc := d }

/-- Element with every field empty or zero except a visible default style;
the concrete test elements below override individual fields. -/
def blankElem : Elem :=
  { tag := "", role := "", classes := [], dataRole := "", text := "", ariaLabel := "",
    title := "", placeholder := "", id := "", name := "", width := 0, height := 0,
    display := "block", visibility := "visible", disabled := false }

/-- A visible enabled button with text Submit, sitting at iframe nesting
depth two. -/
def nestedBtn : Elem :=
  { blankElem with tag := "button", text := "Submit", width := 100, height := 30 }

/-- Innermost document: holds the target button. -/
def depth2Doc : Doc := Doc.node [nestedBtn] [] []

/-- Middle document: no own elements, one accessible iframe to depth two. -/
def depth1Doc : Doc := Doc.node [] [] [(true, depth2Doc)]

/-- Top document: no own elements, one accessible iframe to depth one. -/
def nestedTopDoc : Doc := Doc.node [] [] [(true, depth1Doc)]

/-- Session whose page contains the nested-iframe document and no popups. -/
def nestedState : SessionState :=
  { page := some (openPage nestedTopDoc), allPages := [] }

/-- A visible enabled button with id ok-btn whose text, aria-label and
title do not contain the selector string. -/
def okBtn : Elem :=
  { blankElem with tag := "button", id := "ok-btn", text := "Go", width := 80, height := 24 }

/-- Document holding only okBtn. -/
def selDoc : Doc := Doc.node [okBtn] [] []

/-- Session for the selector-target test. -/
def selState : SessionState :=
  { page := some (openPage selDoc), allPages := [] }

/-- A visible enabled input whose only matching attribute is its title. -/
def titleInput : Elem :=
  { blankElem with tag := "input", title := "Email Address", width := 120, height := 30 }

/-- Session whose page holds only titleInput among the inputs. -/
def titleState : SessionState :=
  { page := some (openPage (Doc.node [] [titleInput] [])), allPages := [] }

/-- A visible enabled button whose only matching attribute is its id. -/
def idBtn : Elem :=
  { blankElem with tag := "button", id := "submit-btn", width := 80, height := 24 }

/-- A visible but disabled button on the main page. -/
def disBtn : Elem :=
  { blankElem with tag := "button", text := "Save", width := 50, height := 20, disabled := true }

/-- Session whose main page holds only the disabled button disBtn. -/
def disState : SessionState :=
  { page := some (openPage (Doc.node [disBtn] [] [])), allPages := [] }

/-- A disabled, zero-size, visibility-hidden input inside an iframe. -/
def disInput : Elem :=
  { blankElem with tag := "input", name := "email", visibility := "hidden", disabled := true }

/-- Session whose page has no own inputs and one accessible iframe holding
only disInput. -/
def disIfrState : SessionState :=
  { page := some (openPage (Doc.node [] [] [(true, Doc.node [] [disInput] [])])), allPages := [] }

/-- A visible enabled input that the dropdown predicate of the
specification classifies as a dropdown: role combobox. -/
def comboInput : Elem :=
  { blankElem with tag := "input", role := "combobox", ariaLabel := "State", width := 120, height := 30 }

/-- Session whose main page holds only comboInput among the inputs. -/
def comboState : SessionState :=
  { page := some (openPage (Doc.node [] [comboInput] [])), allPages := [] }

/-- A page whose evaluate calls throw. -/
def failPage : Page :=
  { closed := false, evalFails := true, doc := Doc.node [nestedBtn] [nestedBtn] [] }

/-- Session whose page throws on evaluation. -/
def failState : SessionState := { page := some failPage, allPages := [] }

/-- A page that is already closed. -/
def closedPage : Page := { closed := true, evalFails := false, doc := depth2Doc }

/-- Session whose page is closed. -/
def closedState : SessionState := { page := some closedPage, allPages := [] }

/-- Session with an open page whose document is empty and one open popup
with an empty document: no element matches any target. -/
def emptyState : SessionState :=
  { page := some (openPage (Doc.node [] [] [])), allPages := [openPage (Doc.node [] [] [])] }

/-- A visible enabled button with mixed-case text Function Id. -/
def fnIdBtn : Elem :=
  { blankElem with tag := "button", text := "Function Id", width := 90, height := 22 }

/-!  Helper lemmas. -/

/-- A character list is a prefix of itself. -/
theorem startsWithB_self (l : List Char) : startsWithB l l = true := by
  induction l with
  | nil => rfl
  | cons a as ih => simp [startsWithB, ih]

/-- A character list occurs inside itself. -/
theorem containsSeq_self (l : List Char) : containsSeq l l = true := by
  cases l with
  | nil => rfl
  | cons c cs => simp [containsSeq, startsWithB_self]

/-- Every string includes itself. -/
theorem includesB_self (s : String) : includesB s s = true := containsSeq_self s.data

/-- A clickWithRetry call never carries an exception out: its outcome is
always an ok value. -/
theorem clickCall_isOk (st : SessionState) (t : String) (m : Nat) :
    ∃ b, clickCall st t m = Except.ok b := by
  unfold clickCall
  cases st.page with
  | none => exact ⟨false, rfl⟩
  | some pg =>
    cases hc : pg.closed with
    | true => exact ⟨false, by simp [hc]⟩
    | false =>
      cases hs : clickSearch pg st.allPages t with
      | ok r => exact ⟨r.isSome, by simp [hc, hs]⟩
      | error u => exact ⟨false, by simp [hc, hs]⟩

/-- A fillWithRetry call never carries an exception out. -/
theorem fillCall_isOk (st : SessionState) (t v : String) (m : Nat) :
    ∃ b, fillCall st t v m = Except.ok b := by
  unfold fillCall
  cases st.page with
  | none => exact ⟨false, rfl⟩
  | some pg =>
    cases hc : pg.closed with
    | true => exact ⟨false, by simp [hc]⟩
    | false =>
      cases hs : fillSearch pg st.allPages t with
      | ok r => exact ⟨r.isSome, by simp [hc, hs]⟩
      | error u => exact ⟨false, by simp [hc, hs]⟩

/-- If no element of the list matches, the main click loop finds nothing. -/
theorem mainClickFind_eq_none (t : String) (l : List Elem)
    (h : List.all l (fun e => !clickMatch t e) = true) : mainClickFind t l = none := by
  induction l with
  | nil => rfl
  | cons e rest ih =>
    simp only [List.all_cons, Bool.and_eq_true, Bool.not_eq_true'] at h
    simp [mainClickFind, h.1, ih h.2]

/-- If no element of the list matches, the iframe click loop finds nothing. -/
theorem iframeClickFind_eq_none (t : String) (l : List Elem)
    (h : List.all l (fun e => !clickMatch t e) = true) : iframeClickFind t l = none := by
  induction l with
  | nil => rfl
  | cons e rest ih =>
    simp only [List.all_cons, Bool.and_eq_true, Bool.not_eq_true'] at h
    simp [iframeClickFind, h.1, ih h.2]

/-- If no clickable of any frame document matches, the iframe sweep finds
nothing. -/
theorem iframeClickScan_eq_none (t : String) (fs : List (Bool × Doc))
    (h : List.all fs (fun fr => List.all (Doc.clickables fr.2) (fun e => !clickMatch t e)) = true) :
    iframeClickScan t fs = none := by
  induction fs with
  | nil => rfl
  | cons fr rest ih =>
    simp only [List.all_cons, Bool.and_eq_true] at h
    obtain ⟨h1, h2⟩ := h
    obtain ⟨acc, d⟩ := fr
    simp [iframeClickScan, iframeClickFind_eq_none t _ h1, ih h2, ite_self]

/-- If no clickable of any popup matches the popup predicate, the popup
loop finds nothing. -/
theorem popupClickLoop_eq_none (t : String) (ps : List Page)
    (h : List.all ps (fun p => List.all (Doc.clickables p.doc) (fun e => !popupClickMatch t e)) = true) :
    popupClickLoop t ps = none := by
  induction ps with
  | nil => rfl
  | cons p rest ih =>
    simp only [List.all_cons, Bool.and_eq_true] at h
    have hfind : List.find? (popupClickMatch t) (Doc.clickables p.doc) = none := by
      rw [List.find?_eq_none]
      intro x hx
      have hx2 := List.all_eq_true.mp h.1 x hx
      simp only [Bool.not_eq_true'] at hx2
      simp [hx2]
    simp [popupClickLoop, hfind, ih h.2, ite_self]

/-- If no input of the list matches, the main fill loop finds nothing. -/
theorem mainFillFind_eq_none (t : String) (l : List Elem)
    (h : List.all l (fun e => !fillMatch t e) = true) : mainFillFind t l = none := by
  induction l with
  | nil => rfl
  | cons e rest ih =>
    simp only [List.all_cons, Bool.and_eq_true, Bool.not_eq_true'] at h
    simp [mainFillFind, h.1, ih h.2]

/-- If no input of any frame document matches, the iframe fill sweep finds
nothing. -/
theorem iframeFillScan_eq_none (t : String) (fs : List (Bool × Doc))
    (h : List.all fs (fun fr => List.all (Doc.inputs fr.2) (fun e => !fillMatch t e)) = true) :
    iframeFillScan t fs = none := by
  induction fs with
  | nil => rfl
  | cons fr rest ih =>
    simp only [List.all_cons, Bool.and_eq_true] at h
    obtain ⟨h1, h2⟩ := h
    obtain ⟨acc, d⟩ := fr
    have hfind : List.find? (fillMatch t) (Doc.inputs d) = none := by
      rw [List.find?_eq_none]
      intro x hx
      have hx2 := List.all_eq_true.mp h1 x hx
      simp only [Bool.not_eq_true'] at hx2
      simp [hx2]
    simp [iframeFillScan, hfind, ih h2, ite_self]

/-- If no input of any popup matches the popup predicate, the popup fill
loop finds nothing. -/
theorem popupFillLoop_eq_none (t : String) (ps : List Page)
    (h : List.all ps (fun p => List.all (Doc.inputs p.doc) (fun e => !popupFillMatch t e)) = true) :
    popupFillLoop t ps = none := by
  induction ps with
  | nil => rfl
  | cons p rest ih =>
    simp only [List.all_cons, Bool.and_eq_true] at h
    have hfind : List.find? (popupFillMatch t) (Doc.inputs p.doc) = none := by
      rw [List.find?_eq_none]
      intro x hx
      have hx2 := List.all_eq_true.mp h.1 x hx
      simp only [Bool.not_eq_true'] at hx2
      simp [hx2]
    simp [popupFillLoop, hfind, ih h.2, ite_self]

/-- Under a total mismatch the click operation reports false. -/
theorem clickFalse_of_noMatch (st : SessionState) (t : String) (m : Nat)
    (h : noClickMatchB st t = true) : clickWithRetry st t m = false := by
  unfold noClickMatchB at h
  unfold clickWithRetry clickCall clickSearch
  cases hp : st.page with
  | none => rfl
  | some pg =>
    rw [hp] at h
    simp only [Bool.and_eq_true] at h
    obtain ⟨⟨hmain, hifr⟩, hpop⟩ := h
    cases hc : pg.closed with
    | true => simp [hc]
    | false =>
      cases he : pg.evalFails with
      | true => simp [hc, he]
      | false =>
        simp [hc, he, clickFound, mainClickFind_eq_none t _ hmain,
          iframeClickScan_eq_none t _ hifr, popupClickLoop_eq_none t _ hpop]

/-- Under a total mismatch the fill operation reports false. -/
theorem fillFalse_of_noMatch (st : SessionState) (t v : String) (m : Nat)
    (h : noFillMatchB st t = true) : fillWithRetry st t v m = false := by
  unfold noFillMatchB at h
  unfold fillWithRetry fillCall fillSearch
  cases hp : st.page with
  | none => rfl
  | some pg =>
    rw [hp] at h
    simp only [Bool.and_eq_true] at h
    obtain ⟨⟨hmain, hifr⟩, hpop⟩ := h
    cases hc : pg.closed with
    | true => simp [hc]
    | false =>
      cases he : pg.evalFails with
      | true => simp [hc, he]
      | false =>
        simp [hc, he, fillFound, mainFillFind_eq_none t _ hmain,
          iframeFillScan_eq_none t _ hifr, popupFillLoop_eq_none t _ hpop]

/-- The popup part of the click trace has at most one entry per popup. -/
theorem popupClickTraceAux_length (t : String) (ps : List Page) :
    (popupClickTraceAux t ps).length ≤ ps.length := by
  induction ps with
  | nil => simp [popupClickTraceAux]
  | cons p rest ih =>
    unfold popupClickTraceAux
    split
    next => simp only [List.length_cons]; omega
    next =>
      split
      next => simp only [List.length_cons]; omega
      next =>
        split
        next => simp only [List.length_cons, List.length_nil]; omega
        next => simp only [List.length_cons]; omega

/-- The popup part of the fill trace has at most one entry per popup. -/
theorem popupFillTraceAux_length (t : String) (ps : List Page) :
    (popupFillTraceAux t ps).length ≤ ps.length := by
  induction ps with
  | nil => simp [popupFillTraceAux]
  | cons p rest ih =>
    unfold popupFillTraceAux
    split
    next => simp only [List.length_cons]; omega
    next =>
      split
      next => simp only [List.length_cons]; omega
      next =>
        split
        next => simp only [List.length_cons, List.length_nil]; omega
        next => simp only [List.length_cons]; omega

/-- One click call performs at most one DOM query per searched context. -/
theorem clickTrace_length (st : SessionState) (t : String) :
    (clickTrace st t).length ≤ 2 + st.allPages.length := by
  have h := popupClickTraceAux_length t st.allPages
  unfold clickTrace
  split
  next => simp
  next pg =>
    split
    next => simp
    next =>
      split
      next => simp only [List.length_cons, List.length_nil]; omega
      next =>
        split
        next => simp only [List.length_cons, List.length_nil]; omega
        next =>
          split
          next => simp only [List.length_cons, List.length_nil]; omega
          next => simp only [List.length_cons]; omega

/-- One fill call performs at most one DOM query per searched context. -/
theorem fillTrace_length (st : SessionState) (t : String) :
    (fillTrace st t).length ≤ 2 + st.allPages.length := by
  have h := popupFillTraceAux_length t st.allPages
  unfold fillTrace
  split
  next => simp
  next pg =>
    split
    next => simp
    next =>
      split
      next => simp only [List.length_cons, List.length_nil]; omega
      next =>
        split
        next => simp only [List.length_cons, List.length_nil]; omega
        next =>
          split
          next => simp only [List.length_cons, List.length_nil]; omega
          next => simp only [List.length_cons]; omega

/-- The popup part of the click trace never contains a main-context entry. -/
theorem popupClickTraceAux_count_main (t : String) (ps : List Page) :
    (popupClickTraceAux t ps).count Ctx.main = 0 := by
  induction ps with
  | nil => rfl
  | cons p rest ih =>
    unfold popupClickTraceAux
    split
    next => exact ih
    next =>
      split
      next => simp [List.count_cons, ih]
      next =>
        split
        next => decide
        next => simp [List.count_cons, ih]

/-- The popup part of the fill trace never contains a main-context entry. -/
theorem popupFillTraceAux_count_main (t : String) (ps : List Page) :
    (popupFillTraceAux t ps).count Ctx.main = 0 := by
  induction ps with
  | nil => rfl
  | cons p rest ih =>
    unfold popupFillTraceAux
    split
    next => exact ih
    next =>
      split
      next => simp [List.count_cons, ih]
      next =>
        split
        next => decide
        next => simp [List.count_cons, ih]

/-- The main-page sweep runs at most once per click call: the strategy
chain is never restarted. -/
theorem clickTrace_count_main (st : SessionState) (t : String) :
    (clickTrace st t).count Ctx.main ≤ 1 := by
  have h0 := popupClickTraceAux_count_main t st.allPages
  unfold clickTrace
  split
  next => simp
  next pg =>
    split
    next => simp
    next =>
      split
      next => decide
      next =>
        split
        next => decide
        next =>
          split
          next => decide
          next => simp [List.count_cons, h0]

/-- The main-page sweep runs at most once per fill call. -/
theorem fillTrace_count_main (st : SessionState) (t : String) :
    (fillTrace st t).count Ctx.main ≤ 1 := by
  have h0 := popupFillTraceAux_count_main t st.allPages
  unfold fillTrace
  split
  next => simp
  next pg =>
    split
    next => simp
    next =>
      split
      next => decide
      next =>
        split
        next => decide
        next =>
          split
          next => decide
          next => simp [List.count_cons, h0]

/-- An element the main click loop returns matched and passed the full
visibility test. -/
theorem mainClickFind_some (t : String) : ∀ (l : List Elem) (e : Elem),
    mainClickFind t l = some e → clickMatch t e = true ∧ visOK e = true := by
  intro l
  induction l with
  | nil => intro e h; exact absurd h (by simp [mainClickFind])
  | cons x rest ih =>
    intro e h
    unfold mainClickFind at h
    by_cases hm : clickMatch t x = true
    · rw [if_pos hm] at h
      by_cases hv : visOK x = true
      · rw [if_pos hv] at h
        obtain rfl : x = e := Option.some.inj h
        exact ⟨hm, hv⟩
      · rw [if_neg hv] at h
        exact ih e h
    · rw [if_neg hm] at h
      exact ih e h

/-- An element the main fill loop returns matched, passed the visibility
test and was enabled. -/
theorem mainFillFind_some (t : String) : ∀ (l : List Elem) (e : Elem),
    mainFillFind t l = some e →
      fillMatch t e = true ∧ visOK e = true ∧ e.disabled = false := by
  intro l
  induction l with
  | nil => intro e h; exact absurd h (by simp [mainFillFind])
  | cons x rest ih =>
    intro e h
    unfold mainFillFind at h
    by_cases hm : fillMatch t x = true
    · rw [if_pos hm] at h
      by_cases hv : (visOK x && !x.disabled) = true
      · rw [if_pos hv] at h
        obtain rfl : x = e := Option.some.inj h
        simp only [Bool.and_eq_true, Bool.not_eq_true'] at hv
        exact ⟨hm, hv.1, hv.2⟩
      · rw [if_neg hv] at h
        exact ih e h
    · rw [if_neg hm] at h
      exact ih e h

/-- An element the per-frame click loop returns matched and had a
non-degenerate bounding box. -/
theorem iframeClickFind_some (t : String) : ∀ (l : List Elem) (e : Elem),
    iframeClickFind t l = some e → clickMatch t e = true ∧ rectOK e = true := by
  intro l
  induction l with
  | nil => intro e h; exact absurd h (by simp [iframeClickFind])
  | cons x rest ih =>
    intro e h
    unfold iframeClickFind at h
    by_cases hm : clickMatch t x = true
    · rw [if_pos hm] at h
      by_cases hv : rectOK x = true
      · rw [if_pos hv] at h
        obtain rfl : x = e := Option.some.inj h
        exact ⟨hm, hv⟩
      · rw [if_neg hv] at h
        exact ih e h
    · rw [if_neg hm] at h
      exact ih e h

/-- An element the iframe click sweep returns matched and had a
non-degenerate bounding box; nothing more is guaranteed there. -/
theorem iframeClickScan_some (t : String) : ∀ (fs : List (Bool × Doc)) (e : Elem),
    iframeClickScan t fs = some e → clickMatch t e = true ∧ rectOK e = true := by
  intro fs
  induction fs with
  | nil => intro e h; exact absurd h (by simp [iframeClickScan])
  | cons fr rest ih =>
    intro e h
    obtain ⟨acc, d⟩ := fr
    unfold iframeClickScan at h
    by_cases ha : acc = true
    · rw [if_pos ha] at h
      cases hf : iframeClickFind t (Doc.clickables d) with
      | some x =>
        rw [hf] at h
        obtain rfl : x = e := Option.some.inj h
        exact iframeClickFind_some t _ _ hf
      | none =>
        rw [hf] at h
        exact ih e h
    · rw [if_neg ha] at h
      exact ih e h

/-- An element the iframe fill sweep returns satisfies the fill match
predicate; no visibility or enabled fact is available. -/
theorem iframeFillScan_some (t : String) : ∀ (fs : List (Bool × Doc)) (e : Elem),
    iframeFillScan t fs = some e → fillMatch t e = true := by
  intro fs
  induction fs with
  | nil => intro e h; exact absurd h (by simp [iframeFillScan])
  | cons fr rest ih =>
    intro e h
    obtain ⟨acc, d⟩ := fr
    unfold iframeFillScan at h
    by_cases ha : acc = true
    · rw [if_pos ha] at h
      cases hf : List.find? (fillMatch t) (Doc.inputs d) with
      | some x =>
        rw [hf] at h
        obtain rfl : x = e := Option.some.inj h
        exact List.find?_some hf
      | none =>
        rw [hf] at h
        exact ih e h
    · rw [if_neg ha] at h
      exact ih e h

/-- An element the popup click loop returns satisfies the popup click
predicate. -/
theorem popupClickLoop_some (t : String) : ∀ (ps : List Page) (e : Elem),
    popupClickLoop t ps = some e → popupClickMatch t e = true := by
  intro ps
  induction ps with
  | nil => intro e h; exact absurd h (by simp [popupClickLoop])
  | cons p rest ih =>
    intro e h
    unfold popupClickLoop at h
    by_cases hc : p.closed = true
    · rw [if_pos hc] at h
      exact ih e h
    · rw [if_neg hc] at h
      by_cases hev : p.evalFails = true
      · rw [if_pos hev] at h
        exact ih e h
      · rw [if_neg hev] at h
        cases hf : List.find? (popupClickMatch t) (Doc.clickables p.doc) with
        | some x =>
          rw [hf] at h
          obtain rfl : x = e := Option.some.inj h
          exact List.find?_some hf
        | none =>
          rw [hf] at h
          exact ih e h

/-- An element the popup fill loop returns satisfies the popup fill
predicate. -/
theorem popupFillLoop_some (t : String) : ∀ (ps : List Page) (e : Elem),
    popupFillLoop t ps = some e → popupFillMatch t e = true := by
  intro ps
  induction ps with
  | nil => intro e h; exact absurd h (by simp [popupFillLoop])
  | cons p rest ih =>
    intro e h
    unfold popupFillLoop at h
    by_cases hc : p.closed = true
    · rw [if_pos hc] at h
      exact ih e h
    · rw [if_neg hc] at h
      by_cases hev : p.evalFails = true
      · rw [if_pos hev] at h
        exact ih e h
      · rw [if_neg hev] at h
        cases hf : List.find? (popupFillMatch t) (Doc.inputs p.doc) with
        | some x =>
          rw [hf] at h
          obtain rfl : x = e := Option.some.inj h
          exact List.find?_some hf
        | none =>
          rw [hf] at h
          exact ih e h

/-- Whatever element a fill call resolves was selected by the fill scan
predicates alone. -/
theorem fillFound_some (pg : Page) (pages : List Page) (t : String) (c : Ctx) (e : Elem)
    (h : fillFound pg pages t = some (c, e)) :
    fillMatch t e = true ∨ popupFillMatch t e = true := by
  unfold fillFound at h
  cases hm : mainFillFind t (Doc.inputs pg.doc) with
  | some x =>
    rw [hm] at h
    simp only [Option.some.injEq, Prod.mk.injEq] at h
    obtain ⟨hc1, he1⟩ := h
    subst he1
    exact Or.inl (mainFillFind_some t _ x hm).1
  | none =>
    rw [hm] at h
    cases hi : iframeFillScan t (Doc.frames pg.doc) with
    | some x =>
      rw [hi] at h
      simp only [Option.some.injEq, Prod.mk.injEq] at h
      obtain ⟨hc1, he1⟩ := h
      subst he1
      exact Or.inl (iframeFillScan_some t _ x hi)
    | none =>
      rw [hi] at h
      cases hp : popupFillLoop t pages with
      | none =>
        rw [hp] at h
        exact absurd h (by simp)
      | some x =>
        rw [hp] at h
        simp only [Option.map_some', Option.some.injEq, Prod.mk.injEq] at h
        obtain ⟨hc1, he1⟩ := h
        subst he1
        exact Or.inr (popupFillLoop_some t _ x hp)

/-- A fill call either acts on nothing or reduces to the pure search over
an open, evaluating page. -/
theorem fillActed_none_cases (st : SessionState) (t : String) :
    fillActed st t = none ∨
      ∃ pg, st.page = some pg ∧ pg.closed = false ∧ pg.evalFails = false ∧
        fillActed st t = fillFound pg st.allPages t := by
  unfold fillActed fillSearch
  cases hp : st.page with
  | none => exact Or.inl rfl
  | some pg =>
    by_cases hc : pg.closed = true
    · exact Or.inl (by simp [hc])
    · by_cases hev : pg.evalFails = true
      · exact Or.inl (by simp [hc, hev])
      · refine Or.inr ⟨pg, rfl, by simp [hc], by simp [hev], by simp [hc, hev]⟩

/-- The element a fill call acts on was selected by the fill scan
predicates alone. -/
theorem fillActed_some (st : SessionState) (t : String) (c : Ctx) (e : Elem)
    (h : fillActed st t = some (c, e)) :
    fillMatch t e = true ∨ popupFillMatch t e = true := by
  rcases fillActed_none_cases st t with hn | ⟨pg, hp, hc, hev, heq⟩
  · rw [hn] at h
    exact absurd h (by simp)
  · rw [heq] at h
    exact fillFound_some pg st.allPages t c e h

/-- The boolean a fill call reports is true exactly when some element was
acted on. -/
theorem fillResult_iff_acted (st : SessionState) (t v : String) (m : Nat) :
    fillWithRetry st t v m = true ↔ (fillActed st t).isSome = true := by
  unfold fillWithRetry fillCall fillActed
  cases hp : st.page with
  | none => simp
  | some pg =>
    by_cases hc : pg.closed = true
    · simp [hc]
    · simp only [hc, if_false]
      cases hs : fillSearch pg st.allPages t with
      | ok r => simp [hs]
      | error u => simp [hs]

/-!  Claim theorems. -/

/-- C1: the public operations always return a boolean and never let an
exception escape: the call outcome is always an ok value equal to the
reported boolean, and when the page evaluation throws, the operation
returns false instead of propagating the error. -/
theorem claimC1_no_exception_escape (st : SessionState) (t v : String) (m : Nat) :
    clickCall st t m = Except.ok (clickWithRetry st t m) ∧
    fillCall st t v m = Except.ok (fillWithRetry st t v m) ∧
    (∀ pg, st.page = some pg → pg.closed = false → pg.evalFails = true →
      clickWithRetry st t m = false ∧ fillWithRetry st t v m = false) := by
  refine ⟨?_, ?_, ?_⟩
  · obtain ⟨b, hb⟩ := clickCall_isOk st t m
    rw [hb]
    unfold clickWithRetry
    rw [hb]
  · obtain ⟨b, hb⟩ := fillCall_isOk st t v m
    rw [hb]
    unfold fillWithRetry
    rw [hb]
  · intro pg hp hc hev
    constructor
    · simp [clickWithRetry, clickCall, clickSearch, hp, hc, hev]
    · simp [fillWithRetry, fillCall, fillSearch, hp, hc, hev]

/-- Witness for C1 at a concrete page whose in-page evaluation throws:
both operations return false. -/
theorem claimC1_witness :
    clickWithRetry failState "x" 1 = false ∧ fillWithRetry failState "x" "y" 1 = false :=
  (claimC1_no_exception_escape failState "x" "y" 1).2.2 failPage rfl rfl rfl

/-- C2: when no element of any searched context matches, both operations
return false; the number of DOM sweeps is bounded by two plus the number
of popups, and the strategy chain runs at most once, hence at most
maxRetries times for any maxRetries of at least one. -/
theorem claimC2_bounded_termination (st : SessionState) (t v : String) (m : Nat)
    (hm : 1 ≤ m) (hnc : noClickMatchB st t = true) (hnf : noFillMatchB st t = true) :
    clickWithRetry st t m = false ∧ fillWithRetry st t v m = false ∧
    (clickTrace st t).length ≤ 2 + st.allPages.length ∧
    (fillTrace st t).length ≤ 2 + st.allPages.length ∧
    (clickTrace st t).count Ctx.main ≤ m ∧
    (fillTrace st t).count Ctx.main ≤ m :=
  ⟨clickFalse_of_noMatch st t m hnc, fillFalse_of_noMatch st t v m hnf,
   clickTrace_length st t, fillTrace_length st t,
   le_trans (clickTrace_count_main st t) hm,
   le_trans (fillTrace_count_main st t) hm⟩

/-- Witness for C2 at a session with an empty main document and one empty
popup: an unmatchable target yields false from both operations. -/
theorem claimC2_witness :
    clickWithRetry emptyState "nonexistent field" 1 = false ∧
    fillWithRetry emptyState "nonexistent field" "v" 1 = false := by
  have h := claimC2_bounded_termination emptyState "nonexistent field" "v" 1
    (by decide) (by decide) (by decide)
  exact ⟨h.1, h.2.1⟩

/-- C3 failing input: a visible, enabled, matching button at iframe
nesting depth two with same-origin access at both levels is not found:
clickWithRetry returns false for any retry budget, because the iframe
sweep enumerates only the iframe children of the top document and never
recurses.  This contradicts the claim and the doc comment of the source
function itself, which lists all nested iframes among the searched
scopes. -/
theorem claimC3_nested_iframe_unreached :
    Doc.frames nestedTopDoc = [(true, depth1Doc)] ∧
    Doc.frames depth1Doc = [(true, depth2Doc)] ∧
    Doc.clickables depth2Doc = [nestedBtn] ∧
    clickMatch "submit" nestedBtn = true ∧
    visOK nestedBtn = true ∧
    nestedBtn.disabled = false ∧
    clickWithRetry nestedState "submit" 1 = false ∧
    clickWithRetry nestedState "submit" 2 = false :=
  ⟨rfl, rfl, rfl, by decide, by decide, rfl, by decide, by decide⟩

/-- C4 counterexample: a resolved fill candidate that the dropdown
predicate of the specification classifies as a dropdown (role combobox)
receives a direct value assignment, not the dropdown protocol: the only
action performed is a plain setValue on it. -/
theorem claimC4_counterexample :
    isDropdownSpec comboInput = true ∧
    fillActed comboState "state" = some (Ctx.main, comboInput) ∧
    fillActs comboState "state" "California" =
      [FillAct.setValue Ctx.main comboInput "California"] ∧
    fillWithRetry comboState "state" "California" 1 = true :=
  ⟨by decide, by decide, by decide, by decide⟩

/-- C4 amended: fillWithRetry performs no dropdown classification at all:
success coincides with some element being acted on, every acted element
receives exactly one plain value assignment and was chosen by the fill
scan predicates alone, and those predicates never read the tag, role,
class list or data-attribute that a dropdown classifier would need. -/
theorem claimC4_no_dropdown_routing (st : SessionState) (t v : String) (m : Nat) :
    (fillWithRetry st t v m = true ↔ (fillActed st t).isSome = true) ∧
    (∀ c e, fillActed st t = some (c, e) →
      fillActs st t v = [FillAct.setValue c e v] ∧
      (fillMatch t e = true ∨ popupFillMatch t e = true)) ∧
    (∀ e : Elem,
      fillMatch t { e with tag := "select", role := "listbox", classes := ["dropdown"], dataRole := "dropdown" } = fillMatch t e) := by
  refine ⟨fillResult_iff_acted st t v m, ?_, ?_⟩
  · intro c e h
    refine ⟨?_, fillActed_some st t c e h⟩
    unfold fillActs
    rw [h]
  · intro e
    cases e
    rfl

/-- Witness for C4 amended at the combobox fixture. -/
theorem claimC4_witness :
    fillActs comboState "state" "California" =
      [FillAct.setValue Ctx.main comboInput "California"] ∧
    (fillMatch "state" comboInput = true ∨ popupFillMatch "state" comboInput = true) :=
  (claimC4_no_dropdown_routing comboState "state" "California" 1).2.1
    Ctx.main comboInput (by decide)

/-- C5 counterexample: a selector-like target whose selector resolves a
visible enabled element is not found: the source has no selector branch,
so the literal selector string is substring-matched against the label
attributes and both operations return false. -/
theorem claimC5_counterexample :
    specSelectorLike "#ok-btn" = true ∧
    specSelectorResolve "#ok-btn" selDoc = some okBtn ∧
    visOK okBtn = true ∧
    okBtn.disabled = false ∧
    clickWithRetry selState "#ok-btn" 1 = false ∧
    fillWithRetry selState "#ok-btn" "x" 1 = false :=
  ⟨by decide, by decide, by decide, rfl, by decide, by decide⟩

/-- C5 amended: selector-like targets are not treated specially: they go
through the same substring scan as label-like targets, so whenever no
element satisfies the scan predicates the click returns false, regardless
of any element the selector itself would resolve. -/
theorem claimC5_no_selector_branch (st : SessionState) (t : String) (m : Nat)
    (hsel : specSelectorLike t = true) (h : noClickMatchB st t = true) :
    clickWithRetry st t m = false :=
  clickFalse_of_noMatch st t m h

/-- Witness for C5 amended at the id-selector fixture. -/
theorem claimC5_witness : clickWithRetry selState "#ok-btn" 1 = false :=
  claimC5_no_selector_branch selState "#ok-btn" 1 (by decide) (by decide)

/-- C6 counterexample: an input whose title contains the target is not a
fill candidate (the fill scan never reads title), and a clickable whose id
contains the target is not a click candidate (the click scan never reads
id), contradicting the claim that any of the six attributes suffices in
every scan. -/
theorem claimC6_counterexample :
    includesB (lower titleInput.title) (lower "email") = true ∧
    visOK titleInput = true ∧
    titleInput.disabled = false ∧
    fillMatch "email" titleInput = false ∧
    fillWithRetry titleState "email" "x" 1 = false ∧
    includesB (lower idBtn.id) (lower "submit") = true ∧
    clickMatch "submit" idBtn = false :=
  ⟨by decide, by decide, rfl, by decide, by decide, by decide, by decide⟩

/-- C6 amended: each scan consults only its own attribute set: the click
predicate reads text, aria-label and title only, the fill predicate reads
placeholder, aria-label, id and name only, and the popup variants drop
title respectively id and name; each predicate is therefore invariant
under changes to every attribute outside its set. -/
theorem claimC6_per_pass_attributes (t : String) (e1 e2 : Elem) :
    (e1.text = e2.text → e1.ariaLabel = e2.ariaLabel → e1.title = e2.title →
      clickMatch t e1 = clickMatch t e2) ∧
    (e1.placeholder = e2.placeholder → e1.ariaLabel = e2.ariaLabel →
      e1.id = e2.id → e1.name = e2.name → fillMatch t e1 = fillMatch t e2) ∧
    (e1.text = e2.text → e1.ariaLabel = e2.ariaLabel →
      popupClickMatch t e1 = popupClickMatch t e2) ∧
    (e1.placeholder = e2.placeholder → e1.ariaLabel = e2.ariaLabel →
      popupFillMatch t e1 = popupFillMatch t e2) := by
  refine ⟨?_, ?_, ?_, ?_⟩
  · intro h1 h2 h3
    unfold clickMatch
    rw [h1, h2, h3]
  · intro h1 h2 h3 h4
    unfold fillMatch
    rw [h1, h2, h3, h4]
  · intro h1 h2
    unfold popupClickMatch
    rw [h1, h2]
  · intro h1 h2
    unfold popupFillMatch
    rw [h1, h2]

/-- Witness for C6 amended: changing text and title of an input does not
change its fill classification. -/
theorem claimC6_witness :
    fillMatch "email" { titleInput with text := "zzz", title := "Other" } =
      fillMatch "email" titleInput :=
  (claimC6_per_pass_attributes "email" _ titleInput).2.1 rfl rfl rfl rfl

/-- C7 counterexample: a disabled but visible main-page button is clicked
(the click path has no enabled check), and a disabled, hidden, zero-size
input inside an iframe is filled (the iframe fill pass has no checks at
all); both operations report success. -/
theorem claimC7_counterexample :
    disBtn.disabled = true ∧
    clickWithRetry disState "save" 1 = true ∧
    clickActed disState "save" = some (Ctx.main, disBtn) ∧
    disInput.disabled = true ∧
    visOK disInput = false ∧
    fillWithRetry disIfrState "email" "x" 1 = true ∧
    fillActed disIfrState "email" = some (Ctx.iframe, disInput) :=
  ⟨rfl, by decide, by decide, rfl, by decide, by decide, by decide⟩

/-- C7 amended: the exclusion guarantees that do hold: the main click
pass only returns fully visible elements, the main fill pass only returns
visible enabled elements, and the iframe click pass only returns elements
with a non-degenerate bounding box; no other pass filters candidates. -/
theorem claimC7_main_pass_filters (t : String) (l : List Elem)
    (fs : List (Bool × Doc)) (e : Elem) :
    (mainClickFind t l = some e → visOK e = true) ∧
    (mainFillFind t l = some e → visOK e = true ∧ e.disabled = false) ∧
    (iframeClickScan t fs = some e → rectOK e = true) :=
  ⟨fun h => (mainClickFind_some t l e h).2,
   fun h => (mainFillFind_some t l e h).2,
   fun h => (iframeClickScan_some t fs e h).2⟩

/-- Witness for C7 amended at the visible nested-button fixture. -/
theorem claimC7_witness :
    visOK nestedBtn = true ∧ rectOK nestedBtn = true := by
  have h := claimC7_main_pass_filters "submit" [nestedBtn] [(true, depth2Doc)] nestedBtn
  exact ⟨h.1 (by decide), h.2.2 (by decide)⟩

/-- C8: matching is invariant under letter case: every match predicate
depends only on the case-folded target, and an element whose compared
attribute equals the target up to case is accepted by every predicate
that reads that attribute. -/
theorem claimC8_case_fold_invariance (t1 t2 : String) (e : Elem) :
    (lower t1 = lower t2 →
      clickMatch t1 e = clickMatch t2 e ∧ fillMatch t1 e = fillMatch t2 e ∧
      popupClickMatch t1 e = popupClickMatch t2 e ∧
      popupFillMatch t1 e = popupFillMatch t2 e) ∧
    (lower e.text = lower t1 → clickMatch t1 e = true ∧ popupClickMatch t1 e = true) ∧
    (lower e.ariaLabel = lower t1 →
      clickMatch t1 e = true ∧ fillMatch t1 e = true ∧
      popupClickMatch t1 e = true ∧ popupFillMatch t1 e = true) ∧
    (lower e.title = lower t1 → clickMatch t1 e = true) ∧
    (lower e.placeholder = lower t1 →
      fillMatch t1 e = true ∧ popupFillMatch t1 e = true) ∧
    (lower e.id = lower t1 → fillMatch t1 e = true) ∧
    (lower e.name = lower t1 → fillMatch t1 e = true) := by
  refine ⟨?_, ?_, ?_, ?_, ?_, ?_, ?_⟩
  · intro h
    unfold clickMatch fillMatch popupClickMatch popupFillMatch
    rw [h]
    exact ⟨rfl, rfl, rfl, rfl⟩
  · intro h
    unfold clickMatch popupClickMatch
    rw [h]
    simp [includesB_self]
  · intro h
    unfold clickMatch fillMatch popupClickMatch popupFillMatch
    rw [h]
    simp [includesB_self]
  · intro h
    unfold clickMatch
    rw [h]
    simp [includesB_self]
  · intro h
    unfold fillMatch popupFillMatch
    rw [h]
    simp [includesB_self]
  · intro h
    unfold fillMatch
    rw [h]
    simp [includesB_self]
  · intro h
    unfold fillMatch
    rw [h]
    simp [includesB_self]

/-- Witness for C8: the target in lower case matches a button whose text
is in title case, and replacing the target by its upper-case variant does
not change the outcome. -/
theorem claimC8_witness :
    clickMatch "function id" fnIdBtn = true ∧
    clickMatch "function id" fnIdBtn = clickMatch "FUNCTION ID" fnIdBtn := by
  have h := claimC8_case_fold_invariance "function id" "FUNCTION ID" fnIdBtn
  exact ⟨(h.2.1 (by decide)).1, (h.1 (by decide)).1⟩

/-- C9: with the page handle unset or the page closed, both operations
return false immediately: no DOM query is issued (empty trace) and no
element is acted on. -/
theorem claimC9_closed_page_inert (st : SessionState) (t v : String) (m : Nat)
    (h : ∀ pg, st.page = some pg → pg.closed = true) :
    clickWithRetry st t m = false ∧ fillWithRetry st t v m = false ∧
    clickTrace st t = [] ∧ fillTrace st t = [] ∧
    clickActed st t = none ∧ fillActed st t = none := by
  cases hp : st.page with
  | none =>
    refine ⟨?_, ?_, ?_, ?_, ?_, ?_⟩ <;>
      simp [clickWithRetry, fillWithRetry, clickCall, fillCall, clickTrace, fillTrace,
        clickActed, fillActed, hp]
  | some pg =>
    have hc := h pg hp
    refine ⟨?_, ?_, ?_, ?_, ?_, ?_⟩ <;>
      simp [clickWithRetry, fillWithRetry, clickCall, fillCall, clickTrace, fillTrace,
        clickActed, fillActed, hp, hc]

/-- Witness for C9 at a concrete closed page. -/
theorem claimC9_witness :
    clickWithRetry closedState "x" 1 = false ∧ clickTrace closedState "x" = [] := by
  have hcl : ∀ pg, closedState.page = some pg → pg.closed = true := by
    intro pg hpg
    have h2 : closedPage = pg := Option.some.inj hpg
    rw [← h2]
    rfl
  have h := claimC9_closed_page_inert closedState "x" "y" 1 hcl
  exact ⟨h.1, h.2.2.1⟩

/-- C10: the result of both operations is independent of the maxRetries
parameter, which the source declares but never reads. -/
theorem claimC10_maxRetries_ignored (st : SessionState) (t v : String) (m1 m2 : Nat) :
    clickWithRetry st t m1 = clickWithRetry st t m2 ∧
    fillWithRetry st t v m1 = fillWithRetry st t v m2 :=
  ⟨rfl, rfl⟩

end SimplifiedSearch
